import Mathlib

/-!
Shallow embedding of the conversation-state / streaming-decoder core of
`src/revChatGPT/V1.py` (class `Chatbot`), together with theorems settling the
claims about it.

Conventions of the embedding:
* Python values flowing through the decoder are modelled by the inductive
  `Json` below; Python `None` is `Json.null` (JSON `null` parses to `None`,
  and `dict.get` of a missing key returns `None`, so one constructor is
  faithful for both).
* Machine randomness (`str(uuid.uuid4())`) is passed in as an explicit
  `freshId : String` argument.
* Network effects are passed in as explicit arguments: `fetchHistory` maps a
  conversation id to the parsed history object returned by
  `get_msg_history` (`none` = the fetch raised), and `mapAll` is the list of
  `(id, current_node)` pairs that `__map_conversations` would install.  The
  number of network fetches performed is returned explicitly so that
  "no network fetch" claims are statable.
* Fallible Python code returns `Except PyErr _`; the distinct Python
  exception classes the claims care about are distinct `PyErr` constructors.
-/

set_option maxHeartbeats 4000000
set_option maxRecDepth 100000

namespace RevChatGPT

/-- Model of a decoded JSON value (= the Python object `json.loads` returns).
Numbers are modelled as integers only: the wire format of the claims never
uses fractional numbers, and a fractional literal is treated as a parse
failure by `jsonLoadsL` below (noted divergence from `json.loads`). -/
inductive Json where
  | null : Json
  | bool (b : Bool) : Json
  | num (n : Int) : Json
  | str (s : String) : Json
  | arr (elems : List Json) : Json
  | obj (fields : List (String × Json)) : Json

mutual

def Json.decEq : (a b : Json) → Decidable (a = b)
  | .null, .null => isTrue rfl
  | .null, .bool _ => isFalse (fun h => Json.noConfusion h)
  | .null, .num _ => isFalse (fun h => Json.noConfusion h)
  | .null, .str _ => isFalse (fun h => Json.noConfusion h)
  | .null, .arr _ => isFalse (fun h => Json.noConfusion h)
  | .null, .obj _ => isFalse (fun h => Json.noConfusion h)
  | .bool _, .null => isFalse (fun h => Json.noConfusion h)
  | .bool a, .bool b =>
    match Bool.decEq a b with
    | isTrue h => isTrue (h ▸ rfl)
    | isFalse h => isFalse (fun hh => h (Json.bool.inj hh))
  | .bool _, .num _ => isFalse (fun h => Json.noConfusion h)
  | .bool _, .str _ => isFalse (fun h => Json.noConfusion h)
  | .bool _, .arr _ => isFalse (fun h => Json.noConfusion h)
  | .bool _, .obj _ => isFalse (fun h => Json.noConfusion h)
  | .num _, .null => isFalse (fun h => Json.noConfusion h)
  | .num _, .bool _ => isFalse (fun h => Json.noConfusion h)
  | .num a, .num b =>
    match Int.decEq a b with
    | isTrue h => isTrue (h ▸ rfl)
    | isFalse h => isFalse (fun hh => h (Json.num.inj hh))
  | .num _, .str _ => isFalse (fun h => Json.noConfusion h)
  | .num _, .arr _ => isFalse (fun h => Json.noConfusion h)
  | .num _, .obj _ => isFalse (fun h => Json.noConfusion h)
  | .str _, .null => isFalse (fun h => Json.noConfusion h)
  | .str _, .bool _ => isFalse (fun h => Json.noConfusion h)
  | .str _, .num _ => isFalse (fun h => Json.noConfusion h)
  | .str a, .str b =>
    match String.decEq a b with
    | isTrue h => isTrue (h ▸ rfl)
    | isFalse h => isFalse (fun hh => h (Json.str.inj hh))
  | .str _, .arr _ => isFalse (fun h => Json.noConfusion h)
  | .str _, .obj _ => isFalse (fun h => Json.noConfusion h)
  | .arr _, .null => isFalse (fun h => Json.noConfusion h)
  | .arr _, .bool _ => isFalse (fun h => Json.noConfusion h)
  | .arr _, .num _ => isFalse (fun h => Json.noConfusion h)
  | .arr _, .str _ => isFalse (fun h => Json.noConfusion h)
  | .arr as, .arr bs =>
    match Json.decEqList as bs with
    | isTrue h => isTrue (h ▸ rfl)
    | isFalse h => isFalse (fun hh => h (Json.arr.inj hh))
  | .arr _, .obj _ => isFalse (fun h => Json.noConfusion h)
  | .obj _, .null => isFalse (fun h => Json.noConfusion h)
  | .obj _, .bool _ => isFalse (fun h => Json.noConfusion h)
  | .obj _, .num _ => isFalse (fun h => Json.noConfusion h)
  | .obj _, .str _ => isFalse (fun h => Json.noConfusion h)
  | .obj _, .arr _ => isFalse (fun h => Json.noConfusion h)
  | .obj fs, .obj gs =>
    match Json.decEqFields fs gs with
    | isTrue h => isTrue (h ▸ rfl)
    | isFalse h => isFalse (fun hh => h (Json.obj.inj hh))

def Json.decEqList : (as bs : List Json) → Decidable (as = bs)
  | [], [] => isTrue rfl
  | [], _ :: _ => isFalse (fun h => List.noConfusion h)
  | _ :: _, [] => isFalse (fun h => List.noConfusion h)
  | a :: as, b :: bs =>
    match Json.decEq a b with
    | isFalse h => isFalse (fun hh => h (List.cons.inj hh).1)
    | isTrue h1 =>
      match Json.decEqList as bs with
      | isTrue h2 => isTrue (by rw [h1, h2])
      | isFalse h2 => isFalse (fun hh => h2 (List.cons.inj hh).2)

def Json.decEqFields : (as bs : List (String × Json)) → Decidable (as = bs)
  | [], [] => isTrue rfl
  | [], _ :: _ => isFalse (fun h => List.noConfusion h)
  | _ :: _, [] => isFalse (fun h => List.noConfusion h)
  | (k, v) :: as, (k2, v2) :: bs =>
    match String.decEq k k2 with
    | isFalse h => isFalse (fun hh => h (congrArg Prod.fst ((List.cons.inj hh).1)))
    | isTrue hk =>
      match Json.decEq v v2 with
      | isFalse h => isFalse (fun hh => h (congrArg Prod.snd ((List.cons.inj hh).1)))
      | isTrue hv =>
        match Json.decEqFields as bs with
        | isTrue h2 => isTrue (by rw [hk, hv, h2])
        | isFalse h2 => isFalse (fun hh => h2 (List.cons.inj hh).2)

end

instance : DecidableEq Json := Json.decEq

/-- Python exceptions distinguished by the embedding.  `valueError` is the
`ValueError("Field missing. ...")` the spec calls `MalformedEventError`; it
carries the decoded object.  `serverError` is the `t.Error` with code
`SERVER_ERROR`; `usageError` the `t.Error` with code `USER_ERROR`. -/
inductive PyErr where
  | typeError : PyErr
  | keyError : PyErr
  | indexError : PyErr
  | attributeError : PyErr
  | valueError (obj : Json) : PyErr
  | serverError : PyErr
  | usageError : PyErr
deriving DecidableEq

/-! ### Character-list string primitives

All string work is done on `List Char` so that concrete evaluation reduces
well in the kernel.  These model the exact Python `str` operations used by
`Chatbot.__send_request`. -/

/-- `matchesAt pat l`: `l` starts with `pat` (Python `str.startswith`). -/
def matchesAt (pat l : List Char) : Bool :=
  match pat, l with
  | [], _ => true
  | _ :: _, [] => false
  | p :: ps, c :: cs => if p == c then matchesAt ps cs else false

/-- `containsSub pat l`: `pat` occurs somewhere in `l` (Python `pat in l`). -/
def containsSub (pat : List Char) : List Char → Bool
  | [] => pat.isEmpty
  | c :: rest => matchesAt pat (c :: rest) || containsSub pat rest

/-- One fuel-indexed pass of Python `str.replace(pat, rep)` (left-to-right,
non-overlapping).  `pat` is nonempty at every call site. -/
def replaceFuel (pat rep : List Char) : Nat → List Char → List Char
  | _, [] => []
  | 0, l => l
  | fuel + 1, c :: rest =>
    if matchesAt pat (c :: rest) && !pat.isEmpty then
      rep ++ replaceFuel pat rep fuel (rest.drop (pat.length - 1))
    else
      c :: replaceFuel pat rep fuel rest

/-- Python `s.replace(pat, rep)`. -/
def pyReplace (pat rep l : List Char) : List Char :=
  replaceFuel pat rep l.length l

/-- ASCII lower-casing of one character (what Python `str.lower` does on the
ASCII lines the decoder compares against `"internal server error"`). -/
def lowerChar (c : Char) : Char :=
  if 'A' ≤ c ∧ c ≤ 'Z' then Char.ofNat (c.toNat + 32) else c

/-- Python `str.lower` on an ASCII line. -/
def toLowerL (l : List Char) : List Char := l.map lowerChar

/-- Python `s.strip("\n")`: removes `'\n'` from BOTH ends of the string. -/
def pyStripNewlines (s : String) : String :=
  ⟨((s.data.dropWhile (· == '\n')).reverse.dropWhile (· == '\n')).reverse⟩

/-- Modelled from the spec: removal of TRAILING newlines only ("with trailing
newlines stripped").  Used solely to compare the spec's wording against the
source's `strip("\n")` (which also removes leading newlines). -/
def specTrailingStrip (s : String) : String :=
  ⟨(s.data.reverse.dropWhile (· == '\n')).reverse⟩

/-! ### JSON parser (model of `json.loads`)

A fuel-indexed recursive-descent parser.  `json.loads` raises
`JSONDecodeError` exactly when `jsonLoadsL` returns `none` (modulo the noted
restriction to integer numerals and the common escape sequences). -/

def lbrace : Char := Char.ofNat 123
def rbrace : Char := Char.ofNat 125

def isWsChar (c : Char) : Bool := c == ' ' || c == '\t' || c == '\n' || c == '\r'

def skipWs : List Char → List Char
  | [] => []
  | c :: rest => if isWsChar c then skipWs rest else c :: rest

/-- The JSON escape characters understood and what each denotes (the `\u`
form is not supported; the wire format at issue never uses it). -/
def escPairs : List (Char × Char) :=
  [('"', '"'), ('\\', '\\'), ('/', '/'), ('n', '\n'), ('t', '\t'), ('r', '\r'),
    ('b', Char.ofNat 8), ('f', Char.ofNat 12)]

/-- Decode one JSON string escape character. -/
def escChar (c : Char) : Option Char :=
  (escPairs.find? (fun p => p.1 == c)).map (fun p => p.2)

/-- Parse the body of a JSON string after the opening quote, returning the
content and the remainder after the closing quote. -/
def parseStrBody : Nat → List Char → Option (List Char × List Char)
  | 0, _ => none
  | _ + 1, [] => none
  | fuel + 1, c :: rest =>
    if c == '"' then some ([], rest)
    else if c == '\\' then
      match rest with
      | [] => none
      | e :: rest2 =>
        match escChar e with
        | none => none
        | some ec => (parseStrBody fuel rest2).map fun p => (ec :: p.1, p.2)
    else (parseStrBody fuel rest).map fun p => (c :: p.1, p.2)

def digitVal (c : Char) : Option Nat :=
  if '0' ≤ c ∧ c ≤ '9' then some (c.toNat - 48) else none

def takeDigits : List Char → List Nat × List Char
  | [] => ([], [])
  | c :: rest =>
    match digitVal c with
    | some d => let p := takeDigits rest; (d :: p.1, p.2)
    | none => ([], c :: rest)

def natOfDigits (ds : List Nat) : Nat := ds.foldl (fun a d => a * 10 + d) 0

/-- Parse an integer numeral (optionally signed); fails when the numeral
continues with a fractional/exponent part (unsupported, see `Json.num`). -/
def parseIntNum (l : List Char) : Option (Json × List Char) :=
  let (neg, l1) := match l with
    | c :: rest => if c == '-' then (true, rest) else (false, l)
    | [] => (false, l)
  let (ds, rest) := takeDigits l1
  if ds.isEmpty then none
  else
    match rest with
    | c :: _ =>
      if c == '.' || c == 'e' || c == 'E' then none
      else some (Json.num (if neg then -(natOfDigits ds : Int) else (natOfDigits ds : Int)), rest)
    | [] => some (Json.num (if neg then -(natOfDigits ds : Int) else (natOfDigits ds : Int)), rest)

mutual

def parseValue : Nat → List Char → Option (Json × List Char)
  | 0, _ => none
  | fuel + 1, l =>
    match skipWs l with
    | [] => none
    | c :: rest =>
      if c == '"' then
        (parseStrBody fuel rest).map fun p => (Json.str ⟨p.1⟩, p.2)
      else if c == 't' then
        if matchesAt ['r', 'u', 'e'] rest then some (Json.bool true, rest.drop 3) else none
      else if c == 'f' then
        if matchesAt ['a', 'l', 's', 'e'] rest then some (Json.bool false, rest.drop 4) else none
      else if c == 'n' then
        if matchesAt ['u', 'l', 'l'] rest then some (Json.null, rest.drop 3) else none
      else if c == '[' then
        match skipWs rest with
        | c2 :: r2 =>
          if c2 == ']' then some (Json.arr [], r2)
          else (parseElems fuel rest).map fun p => (Json.arr p.1, p.2)
        | [] => none
      else if c == lbrace then
        match skipWs rest with
        | c2 :: r2 =>
          if c2 == rbrace then some (Json.obj [], r2)
          else (parseMembers fuel rest).map fun p => (Json.obj p.1, p.2)
        | [] => none
      else if c == '-' || (digitVal c).isSome then
        parseIntNum (c :: rest)
      else none

def parseElems : Nat → List Char → Option (List Json × List Char)
  | 0, _ => none
  | fuel + 1, l =>
    match parseValue fuel l with
    | none => none
    | some (v, r) =>
      match skipWs r with
      | c :: r2 =>
        if c == ',' then (parseElems fuel r2).map fun p => (v :: p.1, p.2)
        else if c == ']' then some ([v], r2)
        else none
      | [] => none

def parseMembers : Nat → List Char → Option (List (String × Json) × List Char)
  | 0, _ => none
  | fuel + 1, l =>
    match skipWs l with
    | c :: rest =>
      if c == '"' then
        match parseStrBody fuel rest with
        | none => none
        | some (k, r) =>
          match skipWs r with
          | c2 :: r2 =>
            if c2 == ':' then
              match parseValue fuel r2 with
              | none => none
              | some (v, r3) =>
                match skipWs r3 with
                | c3 :: r4 =>
                  if c3 == ',' then
                    (parseMembers fuel r4).map fun p => ((⟨k⟩, v) :: p.1, p.2)
                  else if c3 == rbrace then some ([(⟨k⟩, v)], r4)
                  else none
                | [] => none
            else none
          | [] => none
      else none
    | [] => none

end

/-- Model of `json.loads` on a character list: parse one value and require
only whitespace to remain. -/
def jsonLoadsL (l : List Char) : Option Json :=
  match parseValue (2 * l.length + 4) l with
  | some (v, r) => if (skipWs r).isEmpty then some v else none
  | none => none

/-! ### Python value operations

Exact models of the dict/list/str operations the decode loop performs, with
the Python exception they raise on the wrong receiver. -/

/-- Python truthiness of a decoded value (`if x:`). -/
def truthy : Json → Bool
  | .null => false
  | .bool b => b
  | .num n => n != 0
  | .str s => !s.data.isEmpty
  | .arr es => !es.isEmpty
  | .obj fs => !fs.isEmpty

/-- Lookup of a string key in decoded-object fields; Python dicts keep the
last binding of a duplicated key, hence the left fold. -/
def lookupStr (fs : List (String × Json)) (k : String) : Option Json :=
  fs.foldl (fun acc p => if p.1 == k then some p.2 else acc) acc₀
where acc₀ : Option Json := none

/-- Python `x[k]` for a string key `k`: `KeyError` on a dict without the key,
`TypeError` on any non-dict receiver. -/
def pyIndexStr (j : Json) (k : String) : Except PyErr Json :=
  match j with
  | .obj fs =>
    match lookupStr fs k with
    | some v => .ok v
    | none => .error .keyError
  | _ => .error .typeError

/-- Python `x.get(k)`: only dicts have `.get`; a missing key gives `None`. -/
def pyGet (j : Json) (k : String) : Except PyErr Json :=
  match j with
  | .obj fs => .ok ((lookupStr fs k).getD .null)
  | _ => .error .attributeError

/-- Python `x.get(k, d)`. -/
def pyGetD (j : Json) (k : String) (d : Json) : Except PyErr Json :=
  match j with
  | .obj fs => .ok ((lookupStr fs k).getD d)
  | _ => .error .attributeError

/-- Python `x[0]`: first element of a list (`IndexError` when empty), first
character of a string (`IndexError` when empty), `TypeError` otherwise. -/
def pySub0 : Json → Except PyErr Json
  | .arr [] => .error .indexError
  | .arr (x :: _) => .ok x
  | .str s =>
    match s.data with
    | [] => .error .indexError
    | c :: _ => .ok (Json.str ⟨[c]⟩)
  | _ => .error .typeError

/-! ### Stream decoder (`Chatbot.__send_request`, lines 384-428)

`processLine` is the body of `for line in response.iter_lines():` applied to
one raw line (the text after the `str(line)[2:-1]` byte-repr strip, which is
the identity on the ASCII lines at issue). -/

/-- One structured message delta (the dict yielded at V1.py lines 420-428). -/
structure Delta where
  message : Json
  conversation_id : Json
  parent_id : Json
  model : Json
  finish_details : Json
  end_turn : Json
  recipient : Json
deriving DecidableEq

/-- Outcome of processing one raw line of the event stream. -/
inductive LineOutcome where
  | skip : LineOutcome
  | doneMark : LineOutcome
  | fatal (e : PyErr) : LineOutcome
  | emit (d : Delta) : LineOutcome
deriving DecidableEq

def dataTagChars : List Char := "data: ".data
def doneChars : List Char := "[DONE]".data
def iseChars : List Char := "internal server error".data

/-- V1.py lines 397-398: `if "data: " in line: line = line[6:]` — a SUBSTRING
test (not a prefix test) followed by unconditional removal of the first six
characters. -/
def stripDataTag (lc : List Char) : List Char :=
  if containsSub dataTagChars lc then lc.drop 6 else lc

/-- V1.py lines 402-404: the three literal `str.replace` calls, in source
order (`\"` to `"`, then `\'` to `'`, then `\\` to `\`). -/
def applyReplaces (lc : List Char) : List Char :=
  pyReplace ['\\', '\\'] ['\\'] (pyReplace ['\\', '\''] ['\''] (pyReplace ['\\', '"'] ['"'] lc))

/-- `Chatbot.__check_fields` (V1.py lines 670-676): `data["message"]["content"]`
under a `try` that catches `TypeError` and `KeyError` only; `pyIndexStr`
raises exactly those two. -/
def check_fields (data : Json) : Bool :=
  match pyIndexStr data "message" with
  | .error _ => false
  | .ok m =>
    match pyIndexStr m "content" with
    | .error _ => false
    | .ok _ => true

/-- V1.py line 412: `line.get("message").get("author").get("role")` — chained
`dict.get` with no guard; a missing `author` makes the middle `.get` return
`None` and the final `.get` raise `AttributeError`. -/
def authorRole (obj : Json) : Except PyErr Json := do
  let m ← pyGet obj "message"
  let a ← pyGet m "author"
  pyGet a "role"

/-- V1.py lines 414-428: field extraction for one event.  The source assigns
the locals one after another; an exception part-way leaves earlier locals
assigned, but the generator dies before anything observes them, so an
all-or-nothing extraction is observationally faithful. -/
def extractDelta (obj : Json) : Except PyErr Delta := do
  let msgJ ← pyIndexStr obj "message"
  let content ← pyIndexStr msgJ "content"
  let parts ← pyIndexStr content "parts"
  let m0 ← pySub0 parts
  let cid ← pyIndexStr obj "conversation_id"
  let pid ← pyIndexStr msgJ "id"
  let metadata ← pyGetD msgJ "metadata" (Json.obj [])
  let model ← pyGetD metadata "model_slug" Json.null
  let fd ← pyGetD metadata "finish_details" (Json.obj [("type", Json.null)])
  let finish ← pyIndexStr fd "type"
  let endTurn ← pyGetD msgJ "end_turn" (Json.bool true)
  let recipient ← pyGetD msgJ "recipient" (Json.str "all")
  pure ⟨m0, cid, pid, model, finish, endTurn, recipient⟩

/-- The per-line decode step (V1.py lines 386-428), in exact source order:
server-error marker, blank skip, `data: ` strip, `[DONE]`, the three
replaces, `json.loads`, `__check_fields`, author-role filter, extraction. -/
def processLine (line : String) : LineOutcome :=
  let lc := line.data
  if toLowerL lc == iseChars then .fatal .serverError
  else if lc.isEmpty then .skip
  else
    let lc1 := stripDataTag lc
    if lc1 == doneChars then .doneMark
    else
      match jsonLoadsL (applyReplaces lc1) with
      | none => .skip
      | some obj =>
        if !check_fields obj then .fatal (.valueError obj)
        else
          match authorRole obj with
          | .error e => .fatal e
          | .ok role =>
            if role != Json.str "assistant" then .skip
            else
              match extractDelta obj with
              | .error e => .fatal e
              | .ok d => .emit d

/-- The loop-local variables of `__send_request`: `cid`, `pid`, `model`,
`message`, `finish_details` (initialised at V1.py lines 370-371 and 383);
updated per emitted delta at lines 414-419. -/
structure LoopState where
  cid : Json
  pid : Json
  model : Json
  message : Json
  finish : Json
deriving DecidableEq

/-- How the decode loop stopped. -/
inductive StopReason where
  | exhausted : StopReason
  | doneMarker : StopReason
  | errored (e : PyErr) : StopReason
deriving DecidableEq

structure CoreResult where
  deltas : List Delta
  stop : StopReason
  final : LoopState
deriving DecidableEq

/-- The decode loop of `__send_request` over the raw lines: emits deltas in
wire order, stops at `[DONE]` or on a fatal outcome, and threads the locals.
Deltas listed in `deltas` were yielded to the caller even when `stop` is
`errored` (partial output is never retracted). -/
def coreLoop : List String → LoopState → CoreResult
  | [], s => ⟨[], .exhausted, s⟩
  | l :: rest, s =>
    match processLine l with
    | .skip => coreLoop rest s
    | .doneMark => ⟨[], .doneMarker, s⟩
    | .fatal e => ⟨[], .errored e, s⟩
    | .emit d =>
      let r := coreLoop rest ⟨d.conversation_id, d.parent_id, d.model, d.message, d.finish_details⟩
      ⟨d :: r.deltas, r.stop, r.final⟩

/-- Lines whose processing lets the loop continue (a delta or a skip). -/
def lineNonTerminal (l : String) : Bool :=
  match processLine l with
  | .emit _ => true
  | .skip => true
  | _ => false

/-- The delta a line contributes, if any. -/
def emittedOf (l : String) : Option Delta :=
  match processLine l with
  | .emit d => some d
  | _ => none

/-! ### Conversation state (`Chatbot.__init__` fields) and its operations -/

/-- The mutable per-session state of a `Chatbot` instance: current ids, the
conversation-to-parent mapping, the two rollback queues (Python lists used
as stacks: `append` pushes at the end, `pop()` pops from the end), plus the
configuration values the orchestrator reads. -/
structure Session where
  conversation_id : Json
  parent_id : Json
  conversation_mapping : List (Json × Json)
  conversation_id_prev_queue : List Json
  parent_id_prev_queue : List Json
  lazy_loading : Bool
  config_model : Json
  config_paid : Json
deriving DecidableEq

/-- Lookup in `conversation_mapping` (Python dict keyed by arbitrary values,
last binding wins). -/
def lookupMapJ (m : List (Json × Json)) (k : Json) : Option Json :=
  m.foldl (fun acc p => if p.1 == k then some p.2 else acc) noneJ
where noneJ : Option Json := none

/-- Python `d[k] = v` on `conversation_mapping`. -/
def updateMap : List (Json × Json) → Json → Json → List (Json × Json)
  | [], k, v => [(k, v)]
  | (k', v') :: rest, k, v =>
    if k' == k then (k, v) :: rest else (k', v') :: updateMap rest k v

/-- Bulk install of `__map_conversations` results. -/
def mergeAll (m : List (Json × Json)) (adds : List (Json × Json)) : List (Json × Json) :=
  adds.foldl (fun acc p => updateMap acc p.1 p.2) m

/-- V1.py lines 373-374: the two queue pushes performed by `__send_request`
before the POST, recording the request payload's `(cid, pid)`. -/
def pushPrevQueues (st : Session) (cid pid : Json) : Session :=
  { st with
    conversation_id_prev_queue := st.conversation_id_prev_queue ++ [cid]
    parent_id_prev_queue := st.parent_id_prev_queue ++ [pid] }

/-- `Chatbot.reset_chat` (V1.py lines 783-791): sets `conversation_id` to
`None` and `parent_id` to a fresh uuid string.  It touches nothing else — in
particular the two rollback queues and the conversation mapping are left as
they were. -/
def reset_chat (st : Session) (freshId : String) : Session :=
  { st with conversation_id := Json.null, parent_id := Json.str freshId }

/-- `Chatbot.rollback_conversation` (V1.py lines 793-802): `num` iterations,
each popping the end of both queues into the session ids.  Python `list.pop`
on an empty list raises `IndexError`; the partially mutated state at such a
raise is not observable through this embedding's error value. -/
def rollback_conversation : Nat → Session → Except PyErr Session
  | 0, st => .ok st
  | n + 1, st =>
    match st.conversation_id_prev_queue.getLast? with
    | none => .error .indexError
    | some c =>
      let st1 := { st with
        conversation_id := c
        conversation_id_prev_queue := st.conversation_id_prev_queue.dropLast }
      match st1.parent_id_prev_queue.getLast? with
      | none => .error .indexError
      | some p =>
        rollback_conversation n { st1 with
          parent_id := p
          parent_id_prev_queue := st1.parent_id_prev_queue.dropLast }

/-! ### Request payloads and id resolution -/

/-- The JSON body built by `post_messages` (action `"next"`, with messages)
or `continue_write` (action `"continue"`, no messages). -/
structure Payload where
  action : String
  messages : Option Json
  conversation_id : Json
  parent_message_id : Json
  model : Json
deriving DecidableEq

/-- Model precedence (both builders): `model or self.config.get("model") or
("text-davinci-002-render-paid" if self.config.get("paid") else
"text-davinci-002-render-sha")`. -/
def modelDefault (st : Session) (model : Json) : Json :=
  if truthy model then model
  else if truthy st.config_model then st.config_model
  else if truthy st.config_paid then Json.str "text-davinci-002-render-paid"
  else Json.str "text-davinci-002-render-sha"

/-- Result of the shared id-resolution prelude.  `err` carries the session
as it was when the exception was raised; `ok` carries the resolved
`(conversation_id, parent_id)`, the possibly-updated session, and the number
of network fetches performed. -/
inductive ResolveOut where
  | err (e : PyErr) (st : Session) : ResolveOut
  | ok (conversation_id parent_id : Json) (st : Session) (fetches : Nat) : ResolveOut
deriving DecidableEq

/-- The id-resolution prelude shared verbatim by `post_messages` (V1.py
lines 477-516) and `continue_write` (lines 612-650):
usage check, parent invalidation on conversation switch, fallbacks, fresh
uuid for a brand-new conversation, and the `conversation_mapping` consult
(lazy single-history fetch, or bulk `__map_conversations`) when a
conversation id is known but no parent is.  `fetchHistory` models
`get_msg_history` (`none` = it raised; errors in the lazy branch are
suppressed by `contextlib.suppress(Exception)`); `mapAll` models the pairs
`__map_conversations` installs, counted as `1 + mapAll.length` fetches
(one listing plus one history per conversation). -/
def resolveIds (st : Session) (conversation_id parent_id : Json) (freshId : String)
    (fetchHistory : Json → Option Json) (mapAll : List (Json × Json)) : ResolveOut :=
  if truthy parent_id && !truthy conversation_id then .err .usageError st
  else
    let st := if truthy conversation_id && conversation_id != st.conversation_id then
        { st with parent_id := Json.null }
      else st
    let conv := if truthy conversation_id then conversation_id else st.conversation_id
    let par0 := if truthy parent_id then parent_id
      else if truthy st.parent_id then st.parent_id else Json.str ""
    let par := if !truthy conv && !truthy par0 then Json.str freshId else par0
    if truthy conv && !truthy par then
      let fetchRes : Session × Nat :=
        if (lookupMapJ st.conversation_mapping conv).isNone then
          if st.lazy_loading then
            match fetchHistory conv with
            | none => (st, 1)
            | some h =>
              match pyIndexStr h "current_node" with
              | .ok v => ({ st with conversation_mapping := updateMap st.conversation_mapping conv v }, 1)
              | .error _ => (st, 1)
          else
            ({ st with conversation_mapping := mergeAll st.conversation_mapping mapAll },
              1 + mapAll.length)
        else (st, 0)
      match lookupMapJ fetchRes.1.conversation_mapping conv with
      | some p => .ok conv p fetchRes.1 fetchRes.2
      | none => .ok Json.null (Json.str freshId) fetchRes.1 fetchRes.2
    else .ok conv par st 0

/-- Result of the payload-building half of `post_messages`/`continue_write`:
the payload about to be posted, or the exception raised before any request
was sent. -/
inductive PMOut where
  | err (e : PyErr) (st : Session) : PMOut
  | ok (payload : Payload) (st : Session) (fetches : Nat) : PMOut
deriving DecidableEq

/-- `Chatbot.post_messages` up to the payload (V1.py lines 477-531): the
shared resolution prelude followed by the `action: "next"` body. -/
def postMessagesPayload (st : Session) (messages : Json)
    (conversation_id parent_id model : Json) (freshId : String)
    (fetchHistory : Json → Option Json) (mapAll : List (Json × Json)) : PMOut :=
  match resolveIds st conversation_id parent_id freshId fetchHistory mapAll with
  | .err e st' => .err e st'
  | .ok conv par st' f =>
    .ok ⟨"next", some messages, conv, par, modelDefault st' model⟩ st' f

/-- `Chatbot.continue_write` up to the payload (V1.py lines 612-662): the
same resolution prelude followed by the `action: "continue"` body (no
message list). -/
def continueWritePayload (st : Session) (conversation_id parent_id model : Json)
    (freshId : String) (fetchHistory : Json → Option Json)
    (mapAll : List (Json × Json)) : PMOut :=
  match resolveIds st conversation_id parent_id freshId fetchHistory mapAll with
  | .err e st' => .err e st'
  | .ok conv par st' f =>
    .ok ⟨"continue", none, conv, par, modelDefault st' model⟩ st' f

/-! ### `Chatbot.__send_request` (V1.py lines 361-445) -/

/-- What the caller of `__send_request` observes: the deltas yielded to it
(in order; never retracted), the exception that ended the generator if any,
and the session state once the generator is finished or dead. -/
structure SendOut where
  deltas : List Delta
  error : Option PyErr
  session : Session
deriving DecidableEq

/-- The session as it stands at EVERY point between the queue pushes (lines
373-374) and the end of the decode loop: the loop body (lines 384-428)
assigns only the local variables `line`, `message`, `cid`, `pid`,
`metadata`, `model`, `finish_details` and then yields — no attribute of
`self` other than the two queues (pushed once, before the POST) is written
until lines 430-434, which run only after the loop terminates.  Hence this
is the session the caller sees after consuming any prefix of the deltas,
and the session left behind by a mid-stream failure or abandonment. -/
def midStreamSession (st : Session) (data : Payload) : Session :=
  pushPrevQueues st data.conversation_id data.parent_message_id

/-- V1.py lines 430-434, run once after the loop: record
`conversation_mapping[cid] = pid`, then adopt the loop's `pid`/`cid` as the
session ids when they are not `None`. -/
def sessionAfterStream (st : Session) (ls : LoopState) : Session :=
  let st2 := { st with conversation_mapping := updateMap st.conversation_mapping ls.cid ls.pid }
  let st3 := if ls.pid != Json.null then { st2 with parent_id := ls.pid } else st2
  if ls.cid != Json.null then { st3 with conversation_id := ls.cid } else st3

/-- The initial loop locals (V1.py lines 370-371, 383): `cid`, `pid` from
the payload; `model = None`; `message = ""`; `finish_details = None`. -/
def initLoop (data : Payload) : LoopState :=
  ⟨data.conversation_id, data.parent_message_id, Json.null, Json.str "", Json.null⟩

/-- One turn of `__send_request` WITHOUT the auto-continue tail (lines
361-434): push the queues, run the decode loop, and on normal termination
(exhaustion or `[DONE]`) apply the post-loop session updates.  On an errored
stop the post-loop updates never run, so the session stays at
`midStreamSession`.  Also returns the final loop locals, which the
auto-continue tail reads. -/
def sendRequestNoCont (st : Session) (data : Payload) (lines : List String) :
    SendOut × LoopState :=
  let st1 := midStreamSession st data
  let r := coreLoop lines (initLoop data)
  match r.stop with
  | .errored e => (⟨r.deltas, some e, st1⟩, r.final)
  | _ => (⟨r.deltas, none, sessionAfterStream st1 r.final⟩, r.final)

/-- V1.py line 444: `i["message"] = message + i["message"]` applied to each
continuation delta in order.  Python `str + x` raises `TypeError` when `x`
is not a string; deltas before the raise were already yielded. -/
def concatCont (m : String) : List Delta → List Delta × Option PyErr
  | [] => ([], none)
  | d :: rest =>
    match d.message with
    | .str s =>
      let p := concatCont m rest
      ({ d with message := Json.str (m ++ s) } :: p.1, p.2)
    | _ => ([], some .typeError)

/-- The message rewrite the auto-continue tail applies to one delta. -/
def prependMsg (m : String) : Json → Json
  | .str s => Json.str (m ++ s)
  | j => j

/-- `__send_request` WITH its auto-continue tail (V1.py lines 436-445): when
`auto_continue` holds and the last observed `finish_details` is exactly
`"max_tokens"`, strip `"\n"` from BOTH ends of the accumulated message
(`message.strip("\n")`; `AttributeError` when it is not a string), build the
continuation via `continue_write(conversation_id=cid, model=model)` — note
`auto_continue` is NOT forwarded, so the continuation itself never
continues — run its single turn over `lines2`, and prepend the stripped text
to each continuation delta before yielding it. -/
def sendRequestAuto (st : Session) (data : Payload) (autoContinue : Bool)
    (lines1 lines2 : List String) (freshId : String)
    (fetchHistory : Json → Option Json) (mapAll : List (Json × Json)) : SendOut :=
  match sendRequestNoCont st data lines1 with
  | (o1, ls) =>
    match o1.error with
    | some e => ⟨o1.deltas, some e, o1.session⟩
    | none =>
      if !(autoContinue && ls.finish == Json.str "max_tokens") then o1
      else
        match ls.message with
        | .str m =>
          let m' := pyStripNewlines m
          match continueWritePayload o1.session ls.cid (Json.str "") ls.model freshId fetchHistory mapAll with
          | .err e st' => ⟨o1.deltas, some e, st'⟩
          | .ok pl st' _ =>
            let r2 := sendRequestNoCont st' pl lines2
            let p := concatCont m' r2.1.deltas
            match p.2 with
            | some e => ⟨o1.deltas ++ p.1, some e, midStreamSession st' pl⟩
            | none => ⟨o1.deltas ++ p.1, r2.1.error, r2.1.session⟩
        | _ => ⟨o1.deltas, some .attributeError, o1.session⟩

/-- A delta whose `message` field is a string. -/
def isStrMsg (d : Delta) : Bool :=
  match d.message with
  | .str _ => true
  | _ => false

/-- The payload's `parent_message_id` of a successful payload build. -/
def PMOut.parentOf : PMOut → Option Json
  | .ok pl _ _ => some pl.parent_message_id
  | _ => none

/-- The payload's `conversation_id` of a successful payload build. -/
def PMOut.convOf : PMOut → Option Json
  | .ok pl _ _ => some pl.conversation_id
  | _ => none

/-- The network-fetch count of a successful payload build. -/
def PMOut.fetchesOf : PMOut → Option Nat
  | .ok _ _ f => some f
  | _ => none

/-! ### Helper lemmas -/

/-- Once the decode loop stops at a `[DONE]` marker, any suffix of further
raw lines is never looked at. -/
theorem coreLoop_append_of_done (xs : List String) :
    ∀ s, (coreLoop xs s).stop = StopReason.doneMarker →
      ∀ ys, coreLoop (xs ++ ys) s = coreLoop xs s := by
  induction xs with
  | nil => intro s h ys; simp [coreLoop] at h
  | cons l rest ih =>
    intro s h ys
    cases hp : processLine l with
    | skip =>
      simp only [coreLoop, hp] at h
      simpa only [List.cons_append, coreLoop, hp] using ih s h ys
    | doneMark => simp only [List.cons_append, coreLoop, hp]
    | fatal e => simp [coreLoop, hp] at h
    | emit d =>
      simp only [coreLoop, hp] at h
      simp only [List.cons_append, coreLoop, hp, List.append_eq]
      rw [ih _ h ys]

/-- The deltas of one decode run are exactly the per-line emissions of the
maximal prefix of non-terminating lines, in wire order. -/
theorem coreLoop_deltas (xs : List String) :
    ∀ s, (coreLoop xs s).deltas = (xs.takeWhile lineNonTerminal).filterMap emittedOf := by
  induction xs with
  | nil => intro s; simp [coreLoop]
  | cons l rest ih =>
    intro s
    cases hp : processLine l with
    | skip =>
      simp [coreLoop, hp, List.takeWhile_cons, lineNonTerminal, emittedOf, ih]
    | doneMark =>
      simp [coreLoop, hp, List.takeWhile_cons, lineNonTerminal, emittedOf]
    | fatal e =>
      simp [coreLoop, hp, List.takeWhile_cons, lineNonTerminal, emittedOf]
    | emit d =>
      simp [coreLoop, hp, List.takeWhile_cons, lineNonTerminal, emittedOf, ih]

/-- When every continuation delta carries a string message, the per-delta
message rewrite of the auto-continue tail is a plain map and raises
nothing. -/
theorem concatCont_all_str (m : String) (ds : List Delta) :
    ds.all isStrMsg = true →
    concatCont m ds = (ds.map (fun d => { d with message := prependMsg m d.message }), none) := by
  induction ds with
  | nil => intro _; simp [concatCont]
  | cons d rest ih =>
    intro h
    simp only [List.all_cons, Bool.and_eq_true] at h
    cases hd : d.message with
    | str s =>
      simp [concatCont, hd, prependMsg, ih h.2]
    | null => simp [isStrMsg, hd] at h
    | bool b => simp [isStrMsg, hd] at h
    | num n => simp [isStrMsg, hd] at h
    | arr es => simp [isStrMsg, hd] at h
    | obj fs => simp [isStrMsg, hd] at h

/-! ### Concrete fixtures used by counterexamples and witnesses -/

/-- A session holding a prior position and a nonempty rollback history. -/
def cexSession : Session :=
  ⟨Json.str "c0", Json.str "p0", [], [Json.str "qa"], [Json.str "qb"], true, Json.null, Json.null⟩

/-- A fresh-conversation session. -/
def c2Session : Session :=
  ⟨Json.null, Json.str "root", [], [], [], true, Json.null, Json.null⟩

/-- A `"next"` payload for a brand-new conversation. -/
def c2Data : Payload :=
  ⟨"next", some (Json.arr []), Json.null, Json.str "root", Json.str "m"⟩

/-- Turn-1 event: assistant message `"\nHello "` with `finish_details.type`
`"max_tokens"` (note the LEADING newline). -/
def c2Line1 : String :=
  "data: \x7b\"conversation_id\": \"c1\", \"message\": \x7b\"id\": \"p1\", \"author\": \x7b\"role\": \"assistant\"\x7d, \"content\": \x7b\"parts\": [\"\\nHello \"]\x7d, \"metadata\": \x7b\"finish_details\": \x7b\"type\": \"max_tokens\"\x7d\x7d\x7d\x7d"

/-- Turn-1 event with message `"Hello "` (no leading newline), as in the
spec's own example. -/
def c2wLine1 : String :=
  "data: \x7b\"conversation_id\": \"c1\", \"message\": \x7b\"id\": \"p1\", \"author\": \x7b\"role\": \"assistant\"\x7d, \"content\": \x7b\"parts\": [\"Hello \"]\x7d, \"metadata\": \x7b\"finish_details\": \x7b\"type\": \"max_tokens\"\x7d\x7d\x7d\x7d"

/-- Turn-2 (continuation) event: assistant message `"world"`, `finish` is
`"stop"`. -/
def c2Line2 : String :=
  "data: \x7b\"conversation_id\": \"c1\", \"message\": \x7b\"id\": \"p2\", \"author\": \x7b\"role\": \"assistant\"\x7d, \"content\": \x7b\"parts\": [\"world\"]\x7d, \"metadata\": \x7b\"finish_details\": \x7b\"type\": \"stop\"\x7d\x7d\x7d\x7d"

/-- The `data: [DONE]` terminator line. -/
def doneLine : String := "data: [DONE]"

/-! ### Claims -/

/-- C5: for every call to `post_messages` or `continue_write` where
`parent_id` is supplied (truthy) and `conversation_id` is not, the call
fails with a `UsageError` (the `t.Error` with code `USER_ERROR` raised at
V1.py lines 477-482 resp. 612-617) before any request is sent or fetch is
performed, and the session state is returned unchanged. -/
theorem claim_C5_usage_error :
    ∀ (st : Session) (messages conversation_id parent_id model : Json) (freshId : String)
      (fetchHistory : Json → Option Json) (mapAll : List (Json × Json)),
      truthy parent_id = true → truthy conversation_id = false →
      postMessagesPayload st messages conversation_id parent_id model freshId fetchHistory mapAll
          = PMOut.err PyErr.usageError st
      ∧ continueWritePayload st conversation_id parent_id model freshId fetchHistory mapAll
          = PMOut.err PyErr.usageError st := by
  intro st msgs cid pid model f fh ma hp hc
  constructor <;>
    simp [postMessagesPayload, continueWritePayload, resolveIds, hp, hc]

/-- Witness for C5 at a concrete input. -/
theorem claim_C5_witness :
    postMessagesPayload cexSession (Json.arr []) Json.null (Json.str "p") Json.null "f"
        (fun _ => none) [] = PMOut.err PyErr.usageError cexSession
    ∧ continueWritePayload cexSession Json.null (Json.str "p") Json.null "f"
        (fun _ => none) [] = PMOut.err PyErr.usageError cexSession :=
  claim_C5_usage_error cexSession (Json.arr []) Json.null (Json.str "p") Json.null "f"
    (fun _ => none) [] (by decide) (by decide)

/-- C6: rollback is the exact inverse of a push — for any session state,
pushing a pair `(A, B)` onto the rollback queues (as `__send_request` does
at V1.py lines 373-374) and then calling `rollback_conversation 1` (lines
793-802) leaves a session whose `conversation_id`/`parent_id` are exactly
the pushed pair and whose queues are as before the push; in particular,
pushing the session's own current pair restores the session exactly. -/
theorem claim_C6_rollback_inverse :
    ∀ (st : Session) (A B : Json),
      rollback_conversation 1 (pushPrevQueues st A B)
          = Except.ok { st with conversation_id := A, parent_id := B }
      ∧ rollback_conversation 1 (pushPrevQueues st st.conversation_id st.parent_id)
          = Except.ok st := by
  intro st A B
  have key : ∀ X Y : Json,
      rollback_conversation 1 (pushPrevQueues st X Y)
        = Except.ok { st with conversation_id := X, parent_id := Y } := by
    intro X Y
    simp [rollback_conversation, pushPrevQueues, List.getLast?_concat, List.dropLast_concat]
  exact ⟨key A B, by rw [key st.conversation_id st.parent_id]⟩

/-- C7 counterexample: `reset_chat` does NOT clear the rollback history —
on a session with one pushed entry the queue survives a reset, refuting
"leaves the rollback history empty (clears it)". -/
theorem claim_C7_counterexample :
    (reset_chat cexSession "fresh").conversation_id = Json.null
    ∧ (reset_chat cexSession "fresh").parent_id = Json.str "fresh"
    ∧ (reset_chat cexSession "fresh").conversation_id_prev_queue = [Json.str "qa"]
    ∧ (reset_chat cexSession "fresh").parent_id_prev_queue = [Json.str "qb"]
    ∧ [Json.str "qa"] ≠ ([] : List Json) := by
  decide

/-- C7 (amended): `reset_chat` sets `conversation_id` to `None` and
`parent_id` to a freshly generated id, and leaves everything else — in
particular the rollback queues and the conversation mapping — exactly as it
was (it does not clear the rollback history). -/
theorem claim_C7_reset_chat :
    ∀ (st : Session) (freshId : String),
      reset_chat st freshId
          = { st with conversation_id := Json.null, parent_id := Json.str freshId }
      ∧ (reset_chat st freshId).conversation_id_prev_queue = st.conversation_id_prev_queue
      ∧ (reset_chat st freshId).parent_id_prev_queue = st.parent_id_prev_queue
      ∧ (reset_chat st freshId).conversation_mapping = st.conversation_mapping :=
  fun _ _ => ⟨rfl, rfl, rfl, rfl⟩

/-- The C9 fixture: a perfectly valid JSON line that merely CONTAINS
`"data: "` inside a string value. -/
def c9Line : String := "\x7b\"a\": \"data: x\"\x7d"

/-- C9: the decoder's prefix test is a substring test — whenever `"data: "`
occurs anywhere in a line, the first six characters of the line are removed
(V1.py lines 397-398); consequently the valid JSON line `c9Line`, whose
payload merely contains `"data: "` in a string value, is truncated to an
unparsable fragment and silently dropped (`skip`), even though the line
itself parses fine. -/
theorem claim_C9_substring_strip :
    (∀ lc : List Char, containsSub dataTagChars lc = true → stripDataTag lc = lc.drop 6)
    ∧ containsSub dataTagChars c9Line.data = true
    ∧ jsonLoadsL c9Line.data = some (Json.obj [("a", Json.str "data: x")])
    ∧ jsonLoadsL (applyReplaces (stripDataTag c9Line.data)) = none
    ∧ processLine c9Line = LineOutcome.skip := by
  refine ⟨?_, by decide, by decide, by decide, by decide⟩
  intro lc h
  simp [stripDataTag, h]

/-- Witness for C9's universal part at the concrete fixture. -/
theorem claim_C9_witness :
    stripDataTag c9Line.data = c9Line.data.drop 6 :=
  claim_C9_substring_strip.1 c9Line.data (by decide)

/-- Loop locals used by concrete decode runs. -/
def wLoop : LoopState := ⟨Json.null, Json.null, Json.null, Json.str "", Json.null⟩

/-- C3: the decoder emits deltas in wire order — the delta list of any run
is the in-order per-line emission over the maximal non-terminating prefix of
the raw lines; a line equal to `[DONE]` after prefix stripping (and not the
server-error marker) maps to `doneMark`, contributing zero deltas; and once
a run stops at a `[DONE]` marker, appending any further lines changes
nothing, so no delta is ever emitted after `[DONE]` is observed. -/
theorem claim_C3_stream_order :
    (∀ (lines ys : List String) (s : LoopState),
        (coreLoop lines s).stop = StopReason.doneMarker →
        coreLoop (lines ++ ys) s = coreLoop lines s)
    ∧ (∀ (lines : List String) (s : LoopState),
        (coreLoop lines s).deltas = (lines.takeWhile lineNonTerminal).filterMap emittedOf)
    ∧ (∀ l : String,
        l.data ≠ [] → toLowerL l.data ≠ iseChars → stripDataTag l.data = doneChars →
        processLine l = LineOutcome.doneMark ∧ emittedOf l = none) := by
  refine ⟨fun lines ys s h => coreLoop_append_of_done lines s h ys,
    fun lines s => coreLoop_deltas lines s, ?_⟩
  intro l h1 h2 h3
  have hpl : processLine l = LineOutcome.doneMark := by
    simp [processLine, h1, h2, h3]
  exact ⟨hpl, by simp [emittedOf, hpl]⟩

/-- Witness for C3 at concrete inputs: `[DONE]` stops the run and shields
the suffix; the delta list of a concrete run matches the in-order
characterisation. -/
theorem claim_C3_witness :
    coreLoop ([doneLine] ++ [c2Line2]) wLoop = coreLoop [doneLine] wLoop
    ∧ (coreLoop [c2Line2, doneLine] wLoop).deltas
        = ([c2Line2, doneLine].takeWhile lineNonTerminal).filterMap emittedOf
    ∧ processLine doneLine = LineOutcome.doneMark :=
  ⟨claim_C3_stream_order.1 [doneLine] [c2Line2] wLoop (by decide),
    claim_C3_stream_order.2.1 [c2Line2, doneLine] wLoop,
    (claim_C3_stream_order.2.2 doneLine (by decide) (by decide) (by decide)).1⟩

/-- C4: a raw line that fails to parse as JSON is skipped and the decode
run continues unchanged; a raw line that parses as JSON but fails
`__check_fields` (no `message.content`) stops the run with the
`ValueError("Field missing...")` — the spec's `MalformedEventError` —
carrying the decoded object, with no further deltas. -/
theorem claim_C4_malformed_lines :
    (∀ (l : String) (rest : List String) (s : LoopState),
        toLowerL l.data ≠ iseChars → l.data ≠ [] → stripDataTag l.data ≠ doneChars →
        jsonLoadsL (applyReplaces (stripDataTag l.data)) = none →
        processLine l = LineOutcome.skip ∧ coreLoop (l :: rest) s = coreLoop rest s)
    ∧ (∀ (l : String) (rest : List String) (s : LoopState) (obj : Json),
        toLowerL l.data ≠ iseChars → l.data ≠ [] → stripDataTag l.data ≠ doneChars →
        jsonLoadsL (applyReplaces (stripDataTag l.data)) = some obj →
        check_fields obj = false →
        processLine l = LineOutcome.fatal (PyErr.valueError obj)
        ∧ coreLoop (l :: rest) s
            = ⟨[], StopReason.errored (PyErr.valueError obj), s⟩) := by
  constructor
  · intro l rest s h1 h2 h3 h4
    have hpl : processLine l = LineOutcome.skip := by
      simp [processLine, h1, h2, h3, h4]
    exact ⟨hpl, by simp [coreLoop, hpl]⟩
  · intro l rest s obj h1 h2 h3 h4 h5
    have hpl : processLine l = LineOutcome.fatal (PyErr.valueError obj) := by
      simp [processLine, h1, h2, h3, h4, h5]
    exact ⟨hpl, by simp [coreLoop, hpl]⟩

/-- A line that is not JSON after prefix stripping. -/
def c4LineA : String := "data: notjson"

/-- A valid-JSON line with no `message.content`. -/
def c4LineB : String := "data: \x7b\"foo\": 1\x7d"

/-- Witness for C4 at concrete inputs. -/
theorem claim_C4_witness :
    (processLine c4LineA = LineOutcome.skip
      ∧ coreLoop [c4LineA, doneLine] wLoop = coreLoop [doneLine] wLoop)
    ∧ (processLine c4LineB
          = LineOutcome.fatal (PyErr.valueError (Json.obj [("foo", Json.num 1)]))
      ∧ coreLoop [c4LineB] wLoop
          = ⟨[], StopReason.errored (PyErr.valueError (Json.obj [("foo", Json.num 1)])), wLoop⟩) :=
  ⟨claim_C4_malformed_lines.1 c4LineA [doneLine] wLoop
      (by decide) (by decide) (by decide) (by decide),
    claim_C4_malformed_lines.2 c4LineB [] wLoop (Json.obj [("foo", Json.num 1)])
      (by decide) (by decide) (by decide) (by decide) (by decide)⟩

/-- C10: the assistant-role filter reads `message.author.role` through
chained unguarded `.get` calls — for every valid JSON event that passes
`__check_fields` (has `message.content`) but whose message object lacks an
`"author"` field, the decode loop dies with an `AttributeError`
(`None.get(...)`), which is neither a silent skip nor the
`MalformedEventError` (`ValueError`). -/
theorem claim_C10_author_unguarded :
    ∀ (l : String) (rest : List String) (s : LoopState) (obj : Json)
      (msgFs : List (String × Json)),
      toLowerL l.data ≠ iseChars → l.data ≠ [] → stripDataTag l.data ≠ doneChars →
      jsonLoadsL (applyReplaces (stripDataTag l.data)) = some obj →
      check_fields obj = true →
      pyGet obj "message" = Except.ok (Json.obj msgFs) →
      lookupStr msgFs "author" = none →
      processLine l = LineOutcome.fatal PyErr.attributeError
      ∧ coreLoop (l :: rest) s = ⟨[], StopReason.errored PyErr.attributeError, s⟩
      ∧ (∀ o : Json, PyErr.attributeError ≠ PyErr.valueError o)
      ∧ LineOutcome.fatal PyErr.attributeError ≠ LineOutcome.skip := by
  intro l rest s obj msgFs h1 h2 h3 h4 h5 h6 h7
  have har : authorRole obj = Except.error PyErr.attributeError := by
    unfold authorRole
    rw [h6]
    simp [bind, Except.bind, pyGet, h7]
  have hpl : processLine l = LineOutcome.fatal PyErr.attributeError := by
    simp [processLine, h1, h2, h3, h4, h5, har]
  refine ⟨hpl, by simp [coreLoop, hpl], ?_, ?_⟩
  · intro o h; exact PyErr.noConfusion h
  · intro h; exact LineOutcome.noConfusion h

/-- A valid event with `message.content` present but no `message.author`. -/
def c10Line : String :=
  "data: \x7b\"conversation_id\": \"c1\", \"message\": \x7b\"id\": \"p1\", \"content\": \x7b\"parts\": [\"hi\"]\x7d\x7d\x7d"

/-- The decoded object of `c10Line`. -/
def c10Obj : Json :=
  Json.obj [("conversation_id", Json.str "c1"),
    ("message", Json.obj [("id", Json.str "p1"),
      ("content", Json.obj [("parts", Json.arr [Json.str "hi"])])])]

/-- The message-object fields of `c10Obj`. -/
def c10MsgFs : List (String × Json) :=
  [("id", Json.str "p1"), ("content", Json.obj [("parts", Json.arr [Json.str "hi"])])]

/-- Witness for C10 at the concrete fixture. -/
theorem claim_C10_witness :
    processLine c10Line = LineOutcome.fatal PyErr.attributeError
    ∧ coreLoop [c10Line] wLoop = ⟨[], StopReason.errored PyErr.attributeError, wLoop⟩ :=
  ⟨(claim_C10_author_unguarded c10Line [] wLoop c10Obj c10MsgFs
      (by decide) (by decide) (by decide) (by decide) (by decide) rfl rfl).1,
    (claim_C10_author_unguarded c10Line [] wLoop c10Obj c10MsgFs
      (by decide) (by decide) (by decide) (by decide) (by decide) rfl rfl).2.1⟩

/-- A session already positioned at an earlier conversation. -/
def c1Session : Session :=
  ⟨Json.str "old", Json.str "oldp", [], [], [], true, Json.null, Json.null⟩

/-- A `"next"` payload as `post_messages` would build for a new thread. -/
def c1Data : Payload :=
  ⟨"next", some (Json.arr []), Json.null, Json.str "root", Json.str "m"⟩

/-- One assistant delta event carrying ids `("c1", "p1")`. -/
def c1Line : String :=
  "data: \x7b\"conversation_id\": \"c1\", \"message\": \x7b\"id\": \"p1\", \"author\": \x7b\"role\": \"assistant\"\x7d, \"content\": \x7b\"parts\": [\"hi\"]\x7d\x7d\x7d"

/-- C1 counterexample: a stream that yields one delta with ids
`("c1", "p1")` and then fails mid-stream (server-error marker).  The caller
has observed the delta, yet the session still holds the pre-call ids
`("old", "oldp")` — not the last delta's ids — because V1.py updates
`self.conversation_id`/`self.parent_id` only at lines 430-434, after the
loop, which a mid-stream failure never reaches. -/
theorem claim_C1_counterexample :
    ((sendRequestNoCont c1Session c1Data [c1Line, "internal server error"]).1.deltas.map
        (fun d => (d.conversation_id, d.parent_id)))
      = [(Json.str "c1", Json.str "p1")]
    ∧ (sendRequestNoCont c1Session c1Data [c1Line, "internal server error"]).1.error
        = some PyErr.serverError
    ∧ (sendRequestNoCont c1Session c1Data [c1Line, "internal server error"]).1.session.conversation_id
        = Json.str "old"
    ∧ (sendRequestNoCont c1Session c1Data [c1Line, "internal server error"]).1.session.parent_id
        = Json.str "oldp"
    ∧ (Json.str "old", Json.str "oldp") ≠ (Json.str "c1", Json.str "p1") := by
  decide

/-- C1 (amended): during the stream the session ids are NOT updated per
delta — between the queue pushes and the end of the loop they keep their
pre-call values, so a mid-stream failure leaves the session at the
pre-request position (`midStreamSession`), not at the last delta observed;
the session adopts the final observed `(cid, pid)` exactly once, after the
loop terminates normally (when they are not `None`). -/
theorem claim_C1_session_updated_after_stream :
    ∀ (st : Session) (data : Payload) (lines : List String) (o : SendOut) (ls : LoopState),
      sendRequestNoCont st data lines = (o, ls) →
      ((midStreamSession st data).conversation_id = st.conversation_id
        ∧ (midStreamSession st data).parent_id = st.parent_id)
      ∧ (∀ e, o.error = some e → o.session = midStreamSession st data)
      ∧ (o.error = none → ls.cid ≠ Json.null → ls.pid ≠ Json.null →
          o.session.conversation_id = ls.cid ∧ o.session.parent_id = ls.pid) := by
  intro st data lines o ls h
  refine ⟨⟨rfl, rfl⟩, ?_, ?_⟩
  · intro e he
    simp only [sendRequestNoCont] at h
    split at h
    · injection h with h1 h2
      subst h1
      rfl
    · injection h with h1 h2
      subst h1
      simp at he
  · intro hnone hc hp
    simp only [sendRequestNoCont] at h
    split at h
    · injection h with h1 h2
      subst h1
      simp at hnone
    · injection h with h1 h2
      subst h1
      subst h2
      constructor
      · simp [sessionAfterStream, bne_iff_ne, hc, hp]
      · simp [sessionAfterStream, bne_iff_ne, hc, hp]

/-- Witness for C1 (amended) at a concrete completed stream. -/
theorem claim_C1_witness :
    (sendRequestNoCont c1Session c1Data [c1Line, doneLine]).1.session.conversation_id
        = (sendRequestNoCont c1Session c1Data [c1Line, doneLine]).2.cid
    ∧ (sendRequestNoCont c1Session c1Data [c1Line, doneLine]).1.session.parent_id
        = (sendRequestNoCont c1Session c1Data [c1Line, doneLine]).2.pid :=
  (claim_C1_session_updated_after_stream c1Session c1Data [c1Line, doneLine]
      (sendRequestNoCont c1Session c1Data [c1Line, doneLine]).1
      (sendRequestNoCont c1Session c1Data [c1Line, doneLine]).2 rfl).2.2
    (by decide) (by decide) (by decide)

/-- C2 counterexample: a turn ending in `max_tokens` whose accumulated
message `"\nHello "` carries a LEADING newline.  The claim predicts the
continuation deltas get `"\nHello "` with only trailing newlines stripped
prepended — i.e. `"\nHello world"` — but the code runs
`message.strip("\n")`, which strips BOTH ends, producing
`"Hello world"`. -/
theorem claim_C2_counterexample :
    ((sendRequestAuto c2Session c2Data true [c2Line1, doneLine] [c2Line2, doneLine] "f"
          (fun _ => none) []).deltas.map Delta.message)
      = [Json.str "\nHello ", Json.str "Hello world"]
    ∧ specTrailingStrip "\nHello " ++ "world" = "\nHello world"
    ∧ ("Hello world" : String) ≠ "\nHello world" := by
  decide

/-- C2 (amended): when `auto_continue` holds and turn 1 ends with
`finish_details` exactly `"max_tokens"` and a string message `m`, the
orchestrator issues one continuation request and prepends `m` with LEADING
AND TRAILING newlines stripped (`strip("\n")`) to every continuation
delta's string message, the turn-1 deltas passing through unchanged; in
particular `"Hello "` followed by `"world"` yields `"Hello world"` (see the
witness). -/
theorem claim_C2_auto_continue :
    ∀ (st : Session) (data : Payload) (lines1 lines2 : List String) (freshId : String)
      (fetchHistory : Json → Option Json) (mapAll : List (Json × Json))
      (o1 : SendOut) (ls : LoopState) (m : String) (pl : Payload) (st' : Session) (fN : Nat),
      sendRequestNoCont st data lines1 = (o1, ls) →
      o1.error = none →
      ls.finish = Json.str "max_tokens" →
      ls.message = Json.str m →
      continueWritePayload o1.session ls.cid (Json.str "") ls.model freshId fetchHistory mapAll
        = PMOut.ok pl st' fN →
      (sendRequestNoCont st' pl lines2).1.deltas.all isStrMsg = true →
      (sendRequestAuto st data true lines1 lines2 freshId fetchHistory mapAll).deltas
        = o1.deltas
          ++ (sendRequestNoCont st' pl lines2).1.deltas.map
              (fun d => { d with message := prependMsg (pyStripNewlines m) d.message })
      ∧ (sendRequestAuto st data true lines1 lines2 freshId fetchHistory mapAll).error
          = (sendRequestNoCont st' pl lines2).1.error := by
  intro st data lines1 lines2 freshId fetchHistory mapAll o1 ls m pl st' fN
    h1 h2 h3 h4 h5 h6
  have hcc := concatCont_all_str (pyStripNewlines m)
    (sendRequestNoCont st' pl lines2).1.deltas h6
  unfold sendRequestAuto
  rw [h1]
  simp only [h2, h3, h4, h5, beq_self_eq_true, Bool.true_and, Bool.not_true]
  rw [hcc]
  simp

/-- Turn 1 of the spec's own auto-continue example, packaged. -/
def c2TurnOne : SendOut × LoopState :=
  sendRequestNoCont c2Session c2Data [c2wLine1, doneLine]

/-- The continuation payload `continue_write` builds after turn 1. -/
def c2ContPayload : Payload :=
  ⟨"continue", none, Json.str "c1", Json.str "p1", Json.str "text-davinci-002-render-sha"⟩

/-- Witness for C2 (amended): the spec's own two-turn example — turn 1 ends
`max_tokens` with message `"Hello "`, the continuation yields `"world"`,
and the caller's final delta carries `"Hello world"`. -/
theorem claim_C2_witness :
    ((sendRequestAuto c2Session c2Data true [c2wLine1, doneLine] [c2Line2, doneLine] "f"
          (fun _ => none) []).deltas
        = c2TurnOne.1.deltas
          ++ (sendRequestNoCont c2TurnOne.1.session c2ContPayload [c2Line2, doneLine]).1.deltas.map
              (fun d => { d with message := prependMsg (pyStripNewlines "Hello ") d.message }))
    ∧ ((sendRequestAuto c2Session c2Data true [c2wLine1, doneLine] [c2Line2, doneLine] "f"
          (fun _ => none) []).deltas.map Delta.message
        = [Json.str "Hello ", Json.str "Hello world"]) :=
  ⟨(claim_C2_auto_continue c2Session c2Data [c2wLine1, doneLine] [c2Line2, doneLine] "f"
      (fun _ => none) [] c2TurnOne.1 c2TurnOne.2 "Hello " c2ContPayload
      c2TurnOne.1.session 0 rfl (by decide) (by decide) (by decide) (by decide) (by decide)).1,
    by decide⟩

/-- A session whose current conversation is `"c1"` with a live parent
`"p9"`, while the mapping also knows `c1 → p7`. -/
def c8Session : Session :=
  ⟨Json.str "c1", Json.str "p9", [(Json.str "c1", Json.str "p7")], [], [], true,
    Json.null, Json.null⟩

/-- C8 counterexample: calling `post_messages` with `conversation_id="c1"`
and no `parent_id`, while the mapping holds `c1 → "p7"`, does NOT use the
mapped value when the session already has a parent for that conversation:
`parent_id = parent_id or self.parent_id or ""` takes the session's `"p9"`
first, so the payload carries `"p9"`, not the mapped `"p7"`. -/
theorem claim_C8_counterexample :
    lookupMapJ c8Session.conversation_mapping (Json.str "c1") = some (Json.str "p7")
    ∧ (postMessagesPayload c8Session (Json.arr []) (Json.str "c1") Json.null Json.null "f"
          (fun _ => none) []).parentOf = some (Json.str "p9")
    ∧ (postMessagesPayload c8Session (Json.arr []) (Json.str "c1") Json.null Json.null "f"
          (fun _ => none) []).fetchesOf = some 0
    ∧ some (Json.str "p9") ≠ some (Json.str "p7") := by
  decide

/-- C8 (amended): for a call supplying a truthy `conversation_id` and no
`parent_id`, IF the session holds no usable parent for it (the supplied id
differs from the session's current conversation — which discards the cached
parent — or the session's `parent_id` is falsy), and the
`ConversationMapping` already contains the id, then the payload's
`parent_message_id` is exactly the mapped value and zero network fetches
are performed during resolution. -/
theorem claim_C8_mapping_hit :
    ∀ (st : Session) (messages conversation_id model : Json) (freshId : String)
      (fetchHistory : Json → Option Json) (mapAll : List (Json × Json)) (p : Json),
      truthy conversation_id = true →
      (conversation_id ≠ st.conversation_id ∨ truthy st.parent_id = false) →
      lookupMapJ st.conversation_mapping conversation_id = some p →
      (postMessagesPayload st messages conversation_id Json.null model freshId fetchHistory
          mapAll).parentOf = some p
      ∧ (postMessagesPayload st messages conversation_id Json.null model freshId fetchHistory
          mapAll).convOf = some conversation_id
      ∧ (postMessagesPayload st messages conversation_id Json.null model freshId fetchHistory
          mapAll).fetchesOf = some 0 := by
  intro st msgs cid model freshId fh ma p hc hdisj hmap
  have htn : truthy Json.null = false := rfl
  have hestr : truthy (Json.str "") = false := by decide
  by_cases hbe : cid = st.conversation_id
  · subst hbe
    have hpar : truthy st.parent_id = false := by
      rcases hdisj with h | h
      · exact absurd rfl h
      · exact h
    simp [postMessagesPayload, resolveIds, htn, hc, hpar, hestr, hmap,
      PMOut.parentOf, PMOut.convOf, PMOut.fetchesOf]
  · have hne : (cid != st.conversation_id) = true := bne_iff_ne.mpr hbe
    simp [postMessagesPayload, resolveIds, htn, hc, hne, hestr, hmap,
      PMOut.parentOf, PMOut.convOf, PMOut.fetchesOf]

/-- A session positioned elsewhere (`"c0"`) whose mapping knows `c1 → p7`. -/
def c8wSession : Session :=
  ⟨Json.str "c0", Json.str "p0", [(Json.str "c1", Json.str "p7")], [], [], true,
    Json.null, Json.null⟩

/-- Witness for C8 (amended) at a concrete mapping hit. -/
theorem claim_C8_witness :
    (postMessagesPayload c8wSession (Json.arr []) (Json.str "c1") Json.null Json.null "f"
        (fun _ => none) []).parentOf = some (Json.str "p7")
    ∧ (postMessagesPayload c8wSession (Json.arr []) (Json.str "c1") Json.null Json.null "f"
        (fun _ => none) []).convOf = some (Json.str "c1")
    ∧ (postMessagesPayload c8wSession (Json.arr []) (Json.str "c1") Json.null Json.null "f"
        (fun _ => none) []).fetchesOf = some 0 :=
  claim_C8_mapping_hit c8wSession (Json.arr []) (Json.str "c1") Json.null "f"
    (fun _ => none) [] (Json.str "p7")
    (by decide) (Or.inl (by decide)) (by decide)

end RevChatGPT
